import Mathlib

/-!
Verification development for the swiftui-search application
(src/streamlit_app.py).

The program has two parts:
  (1) a data loader "fetch_github_data" (lines 25-63) that fetches a JSON
      payload, builds a pandas DataFrame from its "links" member, appends a
      "full_url" column, and is memoized by "st.cache_data";
  (2) a search filter (lines 71-86) that lower-cases the user query and keeps
      the rows whose lower-cased title matches it via pandas "str.contains"
      (which compiles the query as a regular expression).

The embedding below models JSON values, the relevant fragment of pandas
DataFrame behaviour, the caching wrapper, and the regular-expression search
semantics of "str.contains" for the pattern subset the program can exercise.
-/

namespace SwiftuiSearch

/-- JSON values, as produced by Python response.json(). Objects are modelled
as association lists; Python dicts have unique keys, and key access is
modelled by the first matching binding. -/
inductive Json where
  | null : Json
  | bool : Bool → Json
  | num : Int → Json
  | str : String → Json
  | arr : List Json → Json
  | obj : List (String × Json) → Json

mutual
/-- Structural equality of JSON values, the model of Python equality on
JSON-decoded data (used by the list membership test). -/
def Json.beq : Json → Json → Bool
  | .null, .null => true
  | .bool a, .bool b => a == b
  | .num a, .num b => a == b
  | .str a, .str b => a == b
  | .arr xs, .arr ys => Json.beqList xs ys
  | .obj fs, .obj gs => Json.beqFields fs gs
  | _, _ => false

/-- Elementwise equality of JSON arrays. -/
def Json.beqList : List Json → List Json → Bool
  | [], [] => true
  | x :: xs, y :: ys => Json.beq x y && Json.beqList xs ys
  | _, _ => false

/-- Fieldwise equality of JSON objects. -/
def Json.beqFields : List (String × Json) → List (String × Json) → Bool
  | [], [] => true
  | (k, v) :: fs, (l, w) :: gs => k == l && Json.beq v w && Json.beqFields fs gs
  | _, _ => false
end

instance : BEq Json := ⟨Json.beq⟩

/-- A record of a JSON object: the model of a Python dict. -/
abbrev PyDict := List (String × Json)

/-- Field list of a JSON object (empty for non-objects; only applied under an
is-object guard). -/
def Json.getObj : Json → PyDict
  | .obj fs => fs
  | _ => []

/-- Test for a JSON object. -/
def Json.isObj : Json → Bool
  | .obj _ => true
  | _ => false

/-- Kinds of Python exceptions that can escape fetch_github_data uncaught
(the except clauses at lines 58-63 catch only RequestException and
JSONDecodeError). -/
inductive PyExn where
  | typeError : PyExn
  | keyError : PyExn
  | valueError : PyExn
deriving DecidableEq

mutual
/-- Python repr() of a JSON-decoded value (string escaping inside container
renderings is not modelled; no theorem below depends on container cells). -/
def pyReprOfJson : Json → String
  | .null => "None"
  | .bool true => "True"
  | .bool false => "False"
  | .num n => toString n
  | .str s => "\x27" ++ s ++ "\x27"
  | .arr xs => "[" ++ pyReprList xs ++ "]"
  | .obj fs => "\x7b" ++ pyReprFields fs ++ "\x7d"

/-- Comma-separated repr of a list of JSON values. -/
def pyReprList : List Json → String
  | [] => ""
  | [x] => pyReprOfJson x
  | x :: y :: xs => pyReprOfJson x ++ ", " ++ pyReprList (y :: xs)

/-- Comma-separated repr of the fields of a JSON object. -/
def pyReprFields : List (String × Json) → String
  | [] => ""
  | [(k, v)] => "\x27" ++ k ++ "\x27: " ++ pyReprOfJson v
  | (k, v) :: f :: fs =>
    "\x27" ++ k ++ "\x27: " ++ pyReprOfJson v ++ ", " ++ pyReprFields (f :: fs)
end

/-- Python str() of a JSON-decoded value, as used by f-string formatting:
strings render without quotes, and str of a container equals its repr. -/
def pyStrOfJson : Json → String
  | .str s => s
  | j => pyReprOfJson j

/-- Formatting of a DataFrame cell by an f-string. A missing cell is the
pandas NaN, which formats as "nan". -/
def pyFormat : Option Json → String
  | none => "nan"
  | some j => pyStrOfJson j

/-- Model of a pandas DataFrame built from a list of records: the column
names in order of first appearance, and one record per row. A cell is the
value bound to the column key in the row record; a missing key is NaN. -/
structure DataFrame where
  cols : List String
  rows : List PyDict

/-- Keys of one record appended to an accumulator in first-appearance order. -/
def addKeys (acc : List String) (r : PyDict) : List String :=
  r.foldl (fun a kv => if kv.1 ∈ a then a else a ++ [kv.1]) acc

/-- Column names pandas assigns to a list of records: union of the record
keys in order of first appearance. -/
def unionKeys (recs : List PyDict) : List String :=
  recs.foldl addKeys []

/-- Model of pd.DataFrame(links) at line 48 for the modelled subset: a JSON
array whose elements are all objects. Other shapes (scalars, dicts, mixed or
scalar-element lists) are outside the modelled subset and are mapped to an
error; in pandas those inputs raise directly or produce a frame on which the
subsequent column access at line 51 raises — in all modelled uses an
unhandled exception. No theorem below depends on those shapes. -/
def pdDataFrame : Json → Except PyExn DataFrame
  | .arr recs =>
    if recs.all Json.isObj then
      .ok ⟨unionKeys (recs.map Json.getObj), recs.map Json.getObj⟩
    else .error .valueError
  | _ => .error .valueError

/-- Column read df[c]: the list of cells, or an uncaught KeyError when the
column does not exist (pandas raises KeyError on a missing column). -/
def dfGetCol (df : DataFrame) (c : String) : Except PyExn (List (Option Json)) :=
  if c ∈ df.cols then .ok (df.rows.map (fun r => r.lookup c)) else .error .keyError

/-- Column assignment df[c] = vals: appends the column name when new, and
binds the value in each row record (prepended, so it shadows any earlier
binding of the same key, as pandas assignment overwrites the column). -/
def dfSetCol (df : DataFrame) (c : String) (vals : List Json) : DataFrame :=
  ⟨if c ∈ df.cols then df.cols else df.cols ++ [c],
   List.zipWith (fun r v => (c, v) :: r) df.rows vals⟩

/-- Base documentation URL (line 14 of the source). -/
def BASE_DOC_URL : String := "https://developer.apple.com"

/-- Model of Python str.lower() on the ASCII fragment: each character is
lower-cased (Python also case-folds beyond ASCII; the titles and queries of
this application are ASCII). -/
def pyLower (s : String) : String := ⟨s.data.map Char.toLower⟩

/-- Literal substring test on character lists, the model of the Python
expression "links" in s for strings and the specification-side containment
predicate. -/
def isSubstringOf (p : List Char) : List Char → Bool
  | [] => p.isPrefixOf []
  | c :: rest => p.isPrefixOf (c :: rest) || isSubstringOf p rest

/-- Processing of a successfully parsed payload, lines 46-56 of the source:
the membership test "links" in data, the DataFrame construction, the
full_url column assignment, and the else branch returning None after
st.error. Python membership on a non-container (null, bool, number) raises
TypeError, which no except clause catches. Membership on a list or string
that succeeds is followed by data["links"] with a string key, which raises
TypeError on those types; when membership fails the code takes the else
branch and returns None. -/
def fetchProcess (data : Json) : Except PyExn (Option DataFrame) :=
  match data with
  | .obj fields =>
    match fields.lookup "links" with
    | some links =>
      match pdDataFrame links with
      | .error e => .error e
      | .ok df =>
        match dfGetCol df "url" with
        | .error e => .error e
        | .ok urlCol =>
          .ok (some (dfSetCol df "full_url"
            (urlCol.map (fun cell => Json.str (BASE_DOC_URL ++ pyFormat cell)))))
    | none => .ok none
  | .arr xs => if xs.contains (Json.str "links") then .error .typeError else .ok none
  | .str s => if isSubstringOf "links".data s.data then .error .typeError else .ok none
  | _ => .error .typeError

/-- Outcome of one attempt to reach the remote source. The first two cases
raise exceptions that the except clauses at lines 58-63 catch: any
RequestException from requests.get or raise_for_status (the timeout
exception class is a RequestException subclass, so a timeout raises here
too), and JSONDecodeError from response.json(). The third case is a
successfully parsed payload. -/
inductive FetchOutcome where
  | requestExc : FetchOutcome
  | timeoutExc : FetchOutcome
  | jsonExc : FetchOutcome
  | payload : Json → FetchOutcome

/-- Body of fetch_github_data (lines 38-63) given the fetch outcome: caught
transport and parse exceptions report via st.error and return None; a parsed
payload is processed by the lines modelled in fetchProcess. -/
def fetchBody : FetchOutcome → Except PyExn (Option DataFrame)
  | .requestExc => .ok none
  | .timeoutExc => .ok none
  | .jsonExc => .ok none
  | .payload j => fetchProcess j

/-- Timeout argument of the requests.get call at line 40: the call passes no
timeout keyword, so the requests default of None (wait indefinitely) is in
effect. -/
def fetchTimeoutSeconds : Option Nat := none

/-- One call of the st.cache_data-decorated fetch_github_data against the
current cache slot. The decorator takes no parameters and the function has
no arguments, so there is a single cache slot. A cache hit returns the
memoized return value without running the body; on a miss the body runs and
its return value — including None — is memoized. An exception raised by the
body propagates and nothing is cached. The call returns the value and the
new cache slot. -/
def cachedFetch (cache : Option (Option DataFrame)) (outcome : FetchOutcome) :
    Except PyExn (Option DataFrame × Option (Option DataFrame)) :=
  match cache with
  | some v => .ok (v, some v)
  | none =>
    match fetchBody outcome with
    | .ok v => .ok (v, some v)
    | .error e => .error e

/-- One row of the rendered table: the title and the full documentation URL,
as consumed by the rendering loop at lines 92-93. -/
structure DocEntry where
  title : String
  full_url : String
deriving DecidableEq

/-- Extraction of the title and full_url columns of a frame row by row, as
the rendering loop at lines 92-93 formats row["title"] and row["full_url"]
into markdown. -/
def dfEntries (df : DataFrame) : List DocEntry :=
  df.rows.map (fun r => ⟨pyFormat (r.lookup "title"), pyFormat (r.lookup "full_url")⟩)

/-- Payload holding a given list of records under the "links" key, the shape
the loader expects. -/
def mkPayload (recs : List PyDict) : Json :=
  Json.obj [("links", Json.arr (recs.map Json.obj))]

/-- Atoms of the compiled search pattern in the modelled regular-expression
subset: a literal character or the dot wildcard. -/
inductive RAtom where
  | lit : Char → RAtom
  | dot : RAtom
deriving DecidableEq

/-- Failure of re.compile on the search pattern, raised inside
pandas str.contains and caught by no except clause: an unbalanced
parenthesis is an re.error; the remaining metacharacters are outside the
modelled pattern subset and map to a distinct marker, never to silent
success. -/
inductive ReError where
  | unbalanced : ReError
  | unsupportedMeta : ReError
deriving DecidableEq

/-- Regex metacharacters other than dot and the parentheses: patterns using
them are outside the modelled subset. -/
def isOtherMeta (c : Char) : Bool :=
  c == '^' || c == '$' || c == '*' || c == '+' || c == '?' ||
  c == '\x7b' || c == '\x7d' || c == '[' || c == ']' || c == '\\' || c == '|'

/-- Test for any character the Python re module treats as special. -/
def isMeta (c : Char) : Bool :=
  c == '.' || c == '(' || c == ')' || isOtherMeta c

/-- Compilation of the search pattern, as re.compile inside str.contains:
literal characters and the dot wildcard compile to atoms, parentheses group
without affecting the matched language (capture groups only), and an
unbalanced parenthesis raises re.error. The depth argument counts open
groups. -/
def reParse : List Char → Nat → Except ReError (List RAtom)
  | [], 0 => .ok []
  | [], _ + 1 => .error .unbalanced
  | c :: rest, depth =>
    if c = '.' then (reParse rest depth).map (fun as => RAtom.dot :: as)
    else if c = '(' then reParse rest (depth + 1)
    else if c = ')' then
      match depth with
      | 0 => .error .unbalanced
      | d + 1 => reParse rest d
    else if isOtherMeta c then .error .unsupportedMeta
    else (reParse rest depth).map (fun as => RAtom.lit c :: as)

/-- Match of one pattern atom against one character. -/
def atomMatches : RAtom → Char → Bool
  | .lit c, d => c == d
  | .dot, _ => true

/-- Match of the whole atom list against a prefix of the text. -/
def matchConsume : List RAtom → List Char → Bool
  | [], _ => true
  | _ :: _, [] => false
  | a :: as, c :: cs => atomMatches a c && matchConsume as cs

/-- Unanchored search, as re.search inside str.contains: the pattern may
match starting at any position of the text. -/
def reSearch (atoms : List RAtom) : List Char → Bool
  | [] => matchConsume atoms []
  | c :: rest => matchConsume atoms (c :: rest) || reSearch atoms rest

/-- Search filtering block, lines 76-86 of the source: the query is
lower-cased at input (line 76); a truthy (non-empty) search term selects the
rows whose lower-cased title contains a match of the term compiled as a
regular expression (lines 80-82), and an empty term keeps the whole frame
(line 86). The index is the title/full_url view of the cached frame. -/
def searchFilter (index : List DocEntry) (query : String) :
    Except ReError (List DocEntry) :=
  let searchTerm := pyLower query
  if searchTerm = "" then .ok index
  else
    match reParse searchTerm.data 0 with
    | .error e => .error e
    | .ok atoms => .ok (index.filter (fun e => reSearch atoms (pyLower e.title).data))

/-- Containment predicate in the words of the specification: the lower-cased
query occurs as a literal substring of the lower-cased title. Stated for
comparison with the regular-expression behaviour of searchFilter. -/
def specLiteralContains (query title : String) : Bool :=
  isSubstringOf (pyLower query).data (pyLower title).data

/-- Concrete records of the specification scenario: three records with
titles Text, TextField and Button. -/
def c8Records : List PyDict := [
  [("title", Json.str "Text"), ("url", Json.str "/text")],
  [("title", Json.str "TextField"), ("url", Json.str "/textfield")],
  [("title", Json.str "Button"), ("url", Json.str "/button")]]

/-- Concrete payload of the specification scenario. -/
def c8Payload : Json := mkPayload c8Records

/-- Records with exactly the second one missing its url field. -/
def c4Records : List PyDict := [
  [("title", Json.str "A"), ("url", Json.str "/a")],
  [("title", Json.str "B")]]

/-- Test that a cell holds a string, the well-formedness of one field of a
record in the sense of the specification. -/
def isStrCell : Option Json → Bool
  | some (.str _) => true
  | _ => false

/-- String held by a well-formed cell (defaulting for other cells; only
applied under isStrCell). -/
def strCell : Option Json → String
  | some (.str s) => s
  | _ => ""

/-- Well-shapedness of the value under the "links" key: an array of records
that are all objects, at least one of which carries a "url" key, so that
the DataFrame construction and the url column read both succeed. -/
def goodLinks : Json → Bool
  | .arr recs => recs.all Json.isObj && recs.any (fun r => (r.getObj.lookup "url").isSome)
  | _ => false

/-- Family of payloads on which the loader is exception-free: a JSON object
whose "links" member, when present, is well-shaped; or a container without a
"links" member, for which the code takes the explicit error branch. All
other payloads can raise uncaught exceptions. -/
def payloadOk : Json → Bool
  | .obj fields =>
    match fields.lookup "links" with
    | some v => goodLinks v
    | none => true
  | .arr xs => !xs.contains (Json.str "links")
  | .str s => !isSubstringOf "links".data s.data
  | _ => false

/-- Rendered index produced from the scenario payload: each entry carries
the base URL joined with its path. -/
def c8Index : List DocEntry := [
  ⟨"Text", "https://developer.apple.com/text"⟩,
  ⟨"TextField", "https://developer.apple.com/textfield"⟩,
  ⟨"Button", "https://developer.apple.com/button"⟩]

theorem pyLower_eq_empty_iff (q : String) : pyLower q = "" ↔ q = "" := by
  cases q with
  | mk l => simp [pyLower, String.ext_iff]

theorem matchConsume_map_lit (p s : List Char) :
    matchConsume (p.map RAtom.lit) s = p.isPrefixOf s := by
  induction p generalizing s with
  | nil => cases s <;> rfl
  | cons c cs ih =>
    cases s with
    | nil => rfl
    | cons d ds => simp [matchConsume, atomMatches, List.isPrefixOf, ih]

theorem reSearch_map_lit (p s : List Char) :
    reSearch (p.map RAtom.lit) s = isSubstringOf p s := by
  induction s with
  | nil => simp [reSearch, isSubstringOf, matchConsume_map_lit]
  | cons c cs ih => simp [reSearch, isSubstringOf, matchConsume_map_lit, ih]

theorem reParse_no_meta (l : List Char) (h : ∀ c ∈ l, isMeta c = false) :
    reParse l 0 = .ok (l.map RAtom.lit) := by
  induction l with
  | nil => rfl
  | cons c cs ih =>
    have hc := h c (List.mem_cons_self c cs)
    have hcs : ∀ x ∈ cs, isMeta x = false := fun x hx => h x (List.mem_cons_of_mem c hx)
    rw [isMeta] at hc
    simp only [Bool.or_eq_false_iff, beq_eq_false_iff_ne, ne_eq] at hc
    obtain ⟨⟨⟨hdot, hop⟩, hcl⟩, hother⟩ := hc
    simp [reParse, hdot, hop, hcl, hother, ih hcs, Except.map]

theorem lookup_isSome_mem_keys (r : PyDict) (k : String)
    (h : (r.lookup k).isSome = true) : k ∈ r.map Prod.fst := by
  induction r with
  | nil => simp at h
  | cons kv rest ih =>
    obtain ⟨k0, v0⟩ := kv
    by_cases hk : k = k0
    · simp [hk]
    · rw [List.lookup_cons] at h
      rw [beq_eq_false_iff_ne.mpr hk] at h
      exact List.mem_cons_of_mem _ (ih h)

theorem mem_addKeys_of_mem (r : PyDict) (acc : List String) (k : String)
    (h : k ∈ acc) : k ∈ addKeys acc r := by
  induction r generalizing acc with
  | nil => exact h
  | cons kv rest ih =>
    show k ∈ addKeys (if kv.1 ∈ acc then acc else acc ++ [kv.1]) rest
    apply ih
    split
    · exact h
    · exact List.mem_append_left _ h

theorem mem_addKeys_of_key (r : PyDict) (acc : List String) (k : String)
    (h : k ∈ r.map Prod.fst) : k ∈ addKeys acc r := by
  induction r generalizing acc with
  | nil => simp at h
  | cons kv rest ih =>
    rw [List.map_cons, List.mem_cons] at h
    show k ∈ addKeys (if kv.1 ∈ acc then acc else acc ++ [kv.1]) rest
    rcases h with h | h
    · subst h
      apply mem_addKeys_of_mem
      split
      · assumption
      · simp
    · exact ih _ h

theorem mem_foldl_addKeys_of_mem (recs : List PyDict) (acc : List String)
    (k : String) (h : k ∈ acc) : k ∈ recs.foldl addKeys acc := by
  induction recs generalizing acc with
  | nil => exact h
  | cons r0 rest ih =>
    rw [List.foldl_cons]
    exact ih _ (mem_addKeys_of_mem _ _ _ h)

theorem mem_foldl_addKeys (recs : List PyDict) (acc : List String) (r : PyDict)
    (k : String) (hr : r ∈ recs) (hk : k ∈ r.map Prod.fst) :
    k ∈ recs.foldl addKeys acc := by
  induction recs generalizing acc with
  | nil => simp at hr
  | cons r0 rest ih =>
    rw [List.foldl_cons]
    rcases List.mem_cons.mp hr with h | h
    · subst h
      exact mem_foldl_addKeys_of_mem _ _ _ (mem_addKeys_of_key _ _ _ hk)
    · exact ih _ h

theorem mem_unionKeys_of_key (recs : List PyDict) (r : PyDict) (k : String)
    (hr : r ∈ recs) (hk : k ∈ r.map Prod.fst) : k ∈ unionKeys recs :=
  mem_foldl_addKeys recs [] r k hr hk

theorem zipWith_map_self {α β γ : Type} (g : α → β → γ) (f : α → β)
    (l : List α) : List.zipWith g l (l.map f) = l.map (fun x => g x (f x)) := by
  induction l with
  | nil => rfl
  | cons x xs ih => simp [ih]

theorem all_isObj_map_obj (recs : List PyDict) :
    (recs.map Json.obj).all Json.isObj = true := by
  induction recs with
  | nil => rfl
  | cons r rest ih => simp [Json.isObj, ih]

theorem getObj_map_obj (recs : List PyDict) :
    (recs.map Json.obj).map Json.getObj = recs := by
  induction recs with
  | nil => rfl
  | cons r rest ih => simp [Json.getObj, ih]

theorem fetchProcess_mkPayload_entries (recs : List PyDict)
    (hurl : "url" ∈ unionKeys recs) :
    (fetchProcess (mkPayload recs)).map (Option.map dfEntries) =
      .ok (some (recs.map (fun r =>
        ⟨pyFormat (r.lookup "title"),
         BASE_DOC_URL ++ pyFormat (r.lookup "url")⟩))) := by
  simp only [mkPayload, fetchProcess, List.lookup_cons, beq_self_eq_true,
    pdDataFrame, all_isObj_map_obj, if_true, getObj_map_obj]
  rw [dfGetCol, if_pos hurl]
  simp only [dfSetCol, List.map_map]
  rw [zipWith_map_self]
  simp only [Except.map, Option.map, dfEntries, List.map_map]
  refine congrArg _ (congrArg _ (List.map_congr_left fun r _ => ?_))
  simp [List.lookup_cons, pyFormat, pyStrOfJson]

/-- Claim C1, counterexample: the claim that filter(index, q) is exactly the
literal substring predicate for every non-empty query fails, because
str.contains compiles the query as a regular expression. On the scenario
index, the query "t.xt" selects Text and TextField although neither
lower-cased title contains the literal string "t.xt". -/
theorem c1_counterexample :
    searchFilter c8Index "t.xt" =
      .ok [⟨"Text", "https://developer.apple.com/text"⟩,
           ⟨"TextField", "https://developer.apple.com/textfield"⟩] ∧
    specLiteralContains "t.xt" "Text" = false ∧
    specLiteralContains "t.xt" "TextField" = false :=
  ⟨rfl, rfl, rfl⟩

/-- Claim C1, amended: for every index and every non-empty query whose
lower-casing contains no regular-expression metacharacter, filter(index, q)
is exactly the ordered subsequence of entries whose lower-cased title
contains the lower-cased query as a literal substring (lower-casing a
metacharacter-free query never introduces metacharacters, so this covers
the metacharacter-free queries). -/
theorem c1_amended_plain_query_literal (index : List DocEntry) (query : String)
    (hne : query ≠ "")
    (hplain : ∀ c ∈ (pyLower query).data, isMeta c = false) :
    searchFilter index query =
      .ok (index.filter (fun e => specLiteralContains query e.title)) := by
  have hne2 : pyLower query ≠ "" := fun h => hne ((pyLower_eq_empty_iff query).mp h)
  simp only [searchFilter]
  rw [if_neg hne2, reParse_no_meta _ hplain]
  simp [reSearch_map_lit, specLiteralContains]

/-- Claim C1, witness for the amended theorem at the scenario index and the
query "text". -/
theorem c1_amended_plain_query_literal_witness :
    searchFilter c8Index "text" =
      .ok (c8Index.filter (fun e => specLiteralContains "text" e.title)) :=
  c1_amended_plain_query_literal c8Index "text" (by decide) (by decide)

/-- Claim C5, counterexample: a whitespace-only query is not trimmed; the
truthiness test at line 80 treats the single-space query as a search term,
so it filters for titles containing a space and returns the empty sequence
instead of the full index. -/
theorem c5_counterexample :
    searchFilter c8Index " " = .ok [] ∧ ([] : List DocEntry) ≠ c8Index :=
  ⟨rfl, by decide⟩

/-- Claim C5, amended: only the literally empty query is treated as absent;
filter(index, "") returns the full index unchanged for every index.
Whitespace-only queries are matched as search terms. -/
theorem c5_amended_empty_query_identity (index : List DocEntry) :
    searchFilter index "" = .ok index := rfl

/-- Claim C8: on the concrete scenario payload, the loader yields the three
entries joined with the base URL in order, filter(index, "text") returns
exactly Text and TextField in order with their full URLs, and
filter(index, "zzz") returns the empty sequence. -/
theorem c8_concrete_scenario :
    (fetchProcess c8Payload).map (Option.map dfEntries) = .ok (some c8Index) ∧
    searchFilter c8Index "text" =
      .ok [⟨"Text", "https://developer.apple.com/text"⟩,
           ⟨"TextField", "https://developer.apple.com/textfield"⟩] ∧
    searchFilter c8Index "zzz" = .ok [] :=
  ⟨rfl, rfl, rfl⟩

/-- Claim C9: the filter is pure. In this embedding searchFilter is a
function of the index and the query alone, so the same pair always yields
the same result, and every successful result is a sublist of the input
index: the filter copies rows out in order and never fabricates, reorders or
mutates entries. -/
theorem c9_filter_pure (index : List DocEntry) (query : String) :
    searchFilter index query = searchFilter index query ∧
    ∀ result, searchFilter index query = .ok result → result.Sublist index := by
  refine ⟨rfl, ?_⟩
  intro result h
  simp only [searchFilter] at h
  split at h
  · cases h
    exact List.Sublist.refl index
  · split at h
    · cases h
    · cases h
      exact List.filter_sublist index

/-- Claim C9, witness at a concrete index and query. -/
theorem c9_filter_pure_witness :
    ([] : List DocEntry).Sublist c8Index :=
  (c9_filter_pure c8Index "zzz").2 [] rfl

/-- Claim C10: the filter interprets the query as a regular expression, not
a literal string. The query "." matches every title of the scenario index
although no lower-cased title contains a literal dot, and the unbalanced
pattern "(" raises an re.error exception inside str.contains. -/
theorem c10_regex_not_literal :
    searchFilter c8Index "." = .ok c8Index ∧
    c8Index.filter (fun e => specLiteralContains "." e.title) = [] ∧
    searchFilter c8Index "(" = .error .unbalanced :=
  ⟨rfl, rfl, rfl⟩

theorem pyFormat_strCell (c : Option Json) (h : isStrCell c = true) :
    pyFormat c = strCell c := by
  cases c with
  | none => simp [isStrCell] at h
  | some v =>
    cases v with
    | str s => rfl
    | null => simp [isStrCell] at h
    | bool b => simp [isStrCell] at h
    | num n => simp [isStrCell] at h
    | arr xs => simp [isStrCell] at h
    | obj fs => simp [isStrCell] at h

theorem isSome_of_isStrCell (c : Option Json) (h : isStrCell c = true) :
    c.isSome = true := by
  cases c with
  | none => simp [isStrCell] at h
  | some v => rfl

/-- Claim C2, counterexample: a failed load poisons the cache. A first call
whose fetch raises a transport error returns None and memoizes None; the
next call, although the source is now reachable and valid (the scenario
payload), returns the cached None instead of a normal index — the third
conjunct shows the same outcome would have produced the full index on a
cache miss. -/
theorem c2_counterexample :
    cachedFetch none FetchOutcome.requestExc = .ok (none, some none) ∧
    cachedFetch (some none) (FetchOutcome.payload c8Payload) =
      .ok (none, some none) ∧
    (fetchBody (FetchOutcome.payload c8Payload)).map (Option.map dfEntries) =
      .ok (some c8Index) :=
  ⟨rfl, rfl, rfl⟩

/-- Claim C2, amended: a failed load() DOES poison the cache. st.cache_data
memoizes the None return value of the failure path, and every subsequent
call returns the cached None without attempting a fetch, whatever the
outcome of a fresh fetch would be (until the cache is cleared or the process
restarts). -/
theorem c2_amended_failure_poisons_cache (o : FetchOutcome) :
    cachedFetch none FetchOutcome.requestExc = .ok (none, some none) ∧
    cachedFetch (some none) o = .ok (none, some none) :=
  ⟨rfl, rfl⟩

/-- Claim C3, counterexample: some payloads make load() raise an unhandled
exception. A non-container payload (the JSON number 5) raises TypeError at
the membership test of line 47, and a payload whose links array is empty
raises KeyError at the url column read of line 51 (the frame built from an
empty record list has no columns); neither exception class is caught by the
except clauses at lines 58-63, and the second payload also contradicts the
possibly-empty-index reading. -/
theorem c3_counterexample :
    fetchProcess (Json.num 5) = .error .typeError ∧
    fetchProcess (mkPayload []) = .error .keyError :=
  ⟨rfl, rfl⟩

/-- Claim C3, amended: the loader returns a complete index or the explicit
None failure value — without any exception escaping — exactly on the
well-shaped payload family of payloadOk: JSON objects whose links member,
when present, is an array of record objects at least one of which carries a
url key, and containers without a links member. Outside that family an
unhandled exception can propagate (see the counterexample). -/
theorem c3_amended_wellshaped_no_crash (data : Json)
    (h : payloadOk data = true) : ∃ result, fetchProcess data = .ok result := by
  cases data with
  | null => simp [payloadOk] at h
  | bool b => simp [payloadOk] at h
  | num n => simp [payloadOk] at h
  | str s =>
    simp only [payloadOk, Bool.not_eq_true'] at h
    exact ⟨none, by simp [fetchProcess, h]⟩
  | arr xs =>
    simp only [payloadOk, Bool.not_eq_true'] at h
    exact ⟨none, by simp [fetchProcess, h]⟩
  | obj fields =>
    cases hl : fields.lookup "links" with
    | none => exact ⟨none, by simp [fetchProcess, hl]⟩
    | some v =>
      simp only [payloadOk, hl] at h
      cases v with
      | null => simp [goodLinks] at h
      | bool b => simp [goodLinks] at h
      | num n => simp [goodLinks] at h
      | str s => simp [goodLinks] at h
      | obj fs => simp [goodLinks] at h
      | arr recs =>
        simp only [goodLinks, Bool.and_eq_true, List.any_eq_true] at h
        obtain ⟨hall, r, hr, hsome⟩ := h
        have hurl : "url" ∈ unionKeys (recs.map Json.getObj) := by
          apply mem_unionKeys_of_key _ r.getObj _ (List.mem_map_of_mem _ hr)
          exact lookup_isSome_mem_keys _ _ hsome
        refine ⟨some (dfSetCol ⟨unionKeys (recs.map Json.getObj), recs.map Json.getObj⟩
          "full_url" (((recs.map Json.getObj).map (fun r => r.lookup "url")).map
            (fun cell => Json.str (BASE_DOC_URL ++ pyFormat cell)))), ?_⟩
        simp only [fetchProcess, hl, pdDataFrame, hall, if_true]
        rw [dfGetCol, if_pos hurl]

/-- Claim C3, witness for the amended theorem at the scenario payload. -/
theorem c3_amended_wellshaped_no_crash_witness :
    ∃ result, fetchProcess c8Payload = .ok result :=
  c3_amended_wellshaped_no_crash c8Payload (by decide)

/-- Claim C4, counterexample: a record missing its path field is NOT
excluded. For the two-record payload where exactly the second record lacks
url, load() yields an index of length 2 — retaining record B with the
formatted NaN link — and not an index of length N-1 = 1. -/
theorem c4_counterexample :
    (fetchProcess (mkPayload c4Records)).map (Option.map dfEntries) =
      .ok (some [⟨"A", "https://developer.apple.com/a"⟩,
                 ⟨"B", "https://developer.apple.comnan"⟩]) ∧
    [(⟨"A", "https://developer.apple.com/a"⟩ : DocEntry),
     ⟨"B", "https://developer.apple.comnan"⟩].length ≠ c4Records.length - 1 :=
  ⟨rfl, by decide⟩

/-- Claim C4, amended: records missing required fields are retained, not
excluded. Whenever at least one record carries a url key (so that the url
column exists), load() yields an index keeping every record in source
order — length N, not N-1 — and a record without a url key receives
fullUrl = baseUrl ++ "nan", the f-string rendering of the NaN cell. -/
theorem c4_amended_missing_path_retained (recs : List PyDict)
    (hurl : recs.any (fun r => (r.lookup "url").isSome) = true) :
    (fetchProcess (mkPayload recs)).map (Option.map dfEntries) =
      .ok (some (recs.map (fun r =>
        ⟨pyFormat (r.lookup "title"),
         BASE_DOC_URL ++ pyFormat (r.lookup "url")⟩))) ∧
    pyFormat none = "nan" := by
  obtain ⟨r, hr, hsome⟩ := List.any_eq_true.mp hurl
  exact ⟨fetchProcess_mkPayload_entries recs
    (mem_unionKeys_of_key recs r _ hr (lookup_isSome_mem_keys r _ hsome)), rfl⟩

/-- Claim C4, witness for the amended theorem at the two-record payload with
the second record missing url. -/
theorem c4_amended_missing_path_retained_witness :
    (fetchProcess (mkPayload c4Records)).map (Option.map dfEntries) =
      .ok (some (c4Records.map (fun r =>
        ⟨pyFormat (r.lookup "title"),
         BASE_DOC_URL ++ pyFormat (r.lookup "url")⟩))) ∧
    pyFormat none = "nan" :=
  c4_amended_missing_path_retained c4Records (by decide)

/-- Claim C6, counterexample: a valid payload with N = 0 well-formed records
does not yield an empty index — the loader raises an uncaught KeyError,
because the frame built from an empty record list has no url column. -/
theorem c6_counterexample :
    fetchProcess (mkPayload []) = .error .keyError ∧
    ([] : List PyDict).length = 0 :=
  ⟨rfl, rfl⟩

/-- Claim C6, amended (N at least 1): for every payload of N well-formed
records (each carrying string title and url fields), load() yields an index
of length N in source order whose entries each pair the record title with
fullUrl = baseUrl ++ relativePath. -/
theorem c6_amended_wellformed_load (recs : List PyDict)
    (hne : recs ≠ [])
    (hwf : recs.all (fun r => isStrCell (r.lookup "title") &&
      isStrCell (r.lookup "url")) = true) :
    (fetchProcess (mkPayload recs)).map (Option.map dfEntries) =
      .ok (some (recs.map (fun r =>
        ⟨strCell (r.lookup "title"),
         BASE_DOC_URL ++ strCell (r.lookup "url")⟩))) := by
  have hwf2 : ∀ r ∈ recs, isStrCell (r.lookup "title") = true ∧
      isStrCell (r.lookup "url") = true := by
    intro r hr
    have := List.all_eq_true.mp hwf r hr
    simp only [Bool.and_eq_true] at this
    exact this
  obtain ⟨r0, hr0⟩ : ∃ r, r ∈ recs := by
    cases recs with
    | nil => exact absurd rfl hne
    | cons a b => exact ⟨a, List.mem_cons_self a b⟩
  have hurl : "url" ∈ unionKeys recs :=
    mem_unionKeys_of_key recs r0 _ hr0
      (lookup_isSome_mem_keys r0 _ (isSome_of_isStrCell _ (hwf2 r0 hr0).2))
  rw [fetchProcess_mkPayload_entries recs hurl]
  refine congrArg _ (congrArg _ (List.map_congr_left fun r hr => ?_))
  rw [pyFormat_strCell _ (hwf2 r hr).1, pyFormat_strCell _ (hwf2 r hr).2]

/-- Claim C6, witness for the amended theorem at the three-record scenario
payload. -/
theorem c6_amended_wellformed_load_witness :
    (fetchProcess (mkPayload c8Records)).map (Option.map dfEntries) =
      .ok (some (c8Records.map (fun r =>
        ⟨strCell (r.lookup "title"),
         BASE_DOC_URL ++ strCell (r.lookup "url")⟩))) :=
  c6_amended_wellformed_load c8Records
    (by intro h; simp [c8Records] at h) (by decide)

/-- Claim C7, counterexample: no bounded timeout is configured for the
fetch — the requests.get call at line 40 passes no timeout argument, so the
timeout option holds no value and the library default of waiting
indefinitely is in effect, refuting the claim that the fetch is issued with
a bounded timeout. -/
theorem c7_counterexample : fetchTimeoutSeconds.isSome = false := rfl

/-- Claim C7, amended: the fetch is issued with NO timeout, so a slow or
unresponsive source can hang load() indefinitely; when a timeout exception
is nevertheless raised at the transport level it is a RequestException
subclass and is handled identically to any other transport failure
(load() returns the None failure value). -/
theorem c7_amended_no_timeout :
    fetchTimeoutSeconds = none ∧
    fetchBody FetchOutcome.timeoutExc = .ok none ∧
    fetchBody FetchOutcome.timeoutExc = fetchBody FetchOutcome.requestExc :=
  ⟨rfl, rfl, rfl⟩

end SwiftuiSearch
